import Mathlib

/-
Shallow embedding of src/argparse.hpp (namespace argparse): declarations,
lookup-table construction, the token loop of parser::parse, and typed
result extraction.  Machine strings are modelled as Lean String values and
char positions as char indices (the inputs of interest are ASCII, where
byte and char positions coincide).  Thrown argparse_error values are
modelled as Except.error carrying the exact message string the source
builds; std::exit in the catch block of parse is modelled as an explicit
ParseOutcome constructor.
-/

namespace Argparse

/-- The NUL character: the C++ char value 0, used by the source as the
"no short name" sentinel and returned by std::string operator[] at
position size(). -/
def nul : Char := Char.ofNat 0

/-- First index in a list whose element satisfies a Boolean predicate. -/
def findIdxP {α : Type} (p : α → Bool) : List α → Option Nat
  | [] => none
  | a :: rest => if p a then some 0 else (findIdxP p rest).map (fun j => j + 1)

/-- Update the element at index i, if any (models mutation of args_
through the reference stored in a lookup table). -/
def listModify {α : Type} : List α → Nat → (α → α) → List α
  | [], _, _ => []
  | a :: rest, 0, f => f a :: rest
  | a :: rest, i + 1, f => a :: listModify rest i f

/-- Whether pat occurs contiguously inside l. -/
def listIsInfix {α : Type} [BEq α] (pat l : List α) : Bool :=
  (List.range (l.length + 1)).any (fun i => ((l.drop i).take pat.length) == pat)

/-- arg.substr(0, 2) as a char list, compared by the source with "--". -/
def strTake2 (s : String) : List Char := s.data.take 2

/-- s.substr(n): the suffix of s from char position n. -/
def strDropFrom (s : String) (n : Nat) : String := ⟨s.data.drop n⟩

/-- s.substr(a, b - a): the chars of s from position a up to (excluding) b. -/
def strExtract (s : String) (a b : Nat) : String := ⟨(s.data.drop a).take (b - a)⟩

/-- s.find(c, start): position of the first occurrence of c at or after
start, none when absent (std::string::npos). -/
def findCharFrom (s : String) (c : Char) (start : Nat) : Option Nat :=
  (findIdxP (fun x => x == c) (s.data.drop start)).map (fun j => start + j)

/-- s[i] for 0 ≤ i ≤ s.size: the char at position i, or the null char at
i = size (the value std::string operator[] is defined to return there). -/
def charAt (s : String) (i : Nat) : Char := s.data.getD i nul

/-- C++ istream-skipped whitespace (std::isspace in the C locale). -/
def isStreamWs (c : Char) : Bool :=
  c == ' ' || c == '\t' || c == '\n' || c == '\x0b' || c == '\x0c' || c == '\r'

/-- Decimal digits to a natural number, most significant first. -/
def digitsToNat (l : List Char) : Nat :=
  l.foldl (fun acc c => acc * 10 + (c.toNat - 48)) 0

/-- Models the extraction "isstr >> out" performed by
detail::lexical_cast_t<std::string, Out, false>::apply for an integer
target Out: skip leading whitespace, read an optional sign and a maximal
digit run.  none models the failbit case (no digits), in which C++11
stream extraction writes 0 to the target.  The width of the concrete
integer type is not modelled; values are taken in unbounded Int. -/
def streamExtractInt (l : List Char) : Option Int :=
  match l.dropWhile isStreamWs with
  | '-' :: rest =>
    let ds := rest.takeWhile Char.isDigit
    if ds.isEmpty then none else some (-(digitsToNat ds : Int))
  | '+' :: rest =>
    let ds := rest.takeWhile Char.isDigit
    if ds.isEmpty then none else some ((digitsToNat ds : Int))
  | l1 =>
    let ds := l1.takeWhile Char.isDigit
    if ds.isEmpty then none else some ((digitsToNat ds : Int))

/-- lexical_cast<int> from std::string: stream extraction with no error
check in the source; on extraction failure the C++11 stream has written
0, and that 0 is returned. -/
def strToIntStream (s : String) : Int := (streamExtractInt s.data).getD 0

/-- Runtime state of one declared option: the typed slot val_ of
argument_with_value (instantiated at int and std::string, the
representative element types), or the bool val_ of argument_flag. -/
inductive ArgState
  | valued (slot : Option Int)
  | valuedStr (slot : Option String)
  | flagState (triggered : Bool)
deriving DecidableEq, Repr

/-- One declared option: the argument_base fields (name_, short_name_,
help_) together with the state of the concrete subclass. -/
structure Argument where
  name : String
  short_name : Char
  help : String
  state : ArgState
deriving DecidableEq, Repr

/-- virtual assign(src): argument_with_value stores
lexical_cast<T>(src) into val_, overwriting; argument_flag does nothing. -/
def ArgState.assign : ArgState → String → ArgState
  | .valued _, src => .valued (some (strToIntStream src))
  | .valuedStr _, src => .valuedStr (some src)
  | .flagState b, _ => .flagState b

/-- virtual store_true(): argument_with_value does nothing; argument_flag
sets val_ = true. -/
def ArgState.store_true : ArgState → ArgState
  | .valued v => .valued v
  | .valuedStr v => .valuedStr v
  | .flagState _ => .flagState true

/-- virtual with_value(): true for argument_with_value, false for
argument_flag. -/
def ArgState.with_value : ArgState → Bool
  | .valued _ => true
  | .valuedStr _ => true
  | .flagState _ => false

/-- A final option value: one component of args_type, the tuple of each
argument's arg_type. -/
inductive Value
  | int (v : Int)
  | str (v : String)
  | bool (b : Bool)
deriving DecidableEq, Repr

/-- argument_with_value::get (throws "argument is not initialized" when
val_ is empty) and argument_flag::get (never throws). -/
def ArgState.get : ArgState → Except String Value
  | .valued none => .error "argument is not initialized"
  | .valued (some v) => .ok (.int v)
  | .valuedStr none => .error "argument is not initialized"
  | .valuedStr (some s) => .ok (.str s)
  | .flagState b => .ok (.bool b)

/-- arg<int>(name, short_name, help). -/
def argInt (name : String) (short_name : Char) (help : String) : Argument :=
  ⟨name, short_name, help, .valued none⟩

/-- arg<std::string>(name, short_name, help). -/
def argStr (name : String) (short_name : Char) (help : String) : Argument :=
  ⟨name, short_name, help, .valuedStr none⟩

/-- flag(name, short_name, help). -/
def flag (name : String) (short_name : Char) (help : String) : Argument :=
  ⟨name, short_name, help, .flagState false⟩

/-- lookup_table_t<K>: an unordered_map from keys to the referenced
declaration, represented here by the declaration's index in declaration
order. -/
abbrev LookupTable (κ : Type) := List (κ × Nat)

/-- unordered_map::insert: inserts only when the key is not yet present;
an existing mapping is kept and the new one discarded. -/
def tableInsert {κ : Type} [BEq κ] (m : LookupTable κ) (k : κ) (v : Nat) : LookupTable κ :=
  if (m.find? (fun p => p.1 == k)).isSome then m else m ++ [(k, v)]

/-- Map lookup, combining the source's count()-guard and at(): the mapped
index when the key is present. -/
def tableFind {κ : Type} [BEq κ] (m : LookupTable κ) (k : κ) : Option Nat :=
  (m.find? (fun p => p.1 == k)).map (fun p => p.2)

/-- parser::make_lookup_tables, processed in declaration order (index
sequence 0, 1, ...): insert the name into lookup_, and, when short_name()
is not the NUL sentinel, the short name into short_lookup_. -/
def make_lookup_tables_aux (i : Nat) (L : LookupTable String) (S : LookupTable Char) :
    List Argument → LookupTable String × LookupTable Char
  | [] => (L, S)
  | a :: rest =>
    make_lookup_tables_aux (i + 1) (tableInsert L a.name i)
      (if a.short_name == nul then S else tableInsert S a.short_name i) rest

/-- The two lookup tables built once by the parser constructor. -/
def make_lookup_tables (decls : List Argument) : LookupTable String × LookupTable Char :=
  make_lookup_tables_aux 0 [] [] decls

/-- args_[i].with_value() through the stored reference. -/
def argsWithValue (args : List Argument) (i : Nat) : Bool :=
  match args[i]? with
  | some a => a.state.with_value
  | none => false

/-- args_[i].assign(src) in place. -/
def argsAssign (args : List Argument) (i : Nat) (src : String) : List Argument :=
  listModify args i (fun a => { a with state := a.state.assign src })

/-- args_[i].store_true() in place. -/
def argsStoreTrue (args : List Argument) (i : Nat) : List Argument :=
  listModify args i (fun a => { a with state := a.state.store_true })

/-- The token loop of parser::parse, over the tokens after args[0].
Matching a single remaining token ([t]) separately from two or more
(t :: next :: rest) makes the source's "it + 1 == args.end()" checks
explicit; within each case the branches follow the source line by line:
classification by substr(0,2) == "--", then find('=', 2), else
arg[0] == '-', else positional.  Resolution failures in get_ref and the
"needs value" checks produce the exact argparse_error message strings the
source builds.  When a single remaining token is fully processed the loop
terminates, so the [t] branches return the final (args, remains) state
directly. -/
def parseLoop (L : LookupTable String) (S : LookupTable Char) :
    List Argument → List String → List String →
    Except String (List Argument × List String)
  | args, [], remains => .ok (args, remains)
  | args, [t], remains =>
    if strTake2 t = ['-', '-'] then
      match findCharFrom t '=' 2 with
      | none =>
        .error ("needs value: " ++ strDropFrom t 2)
      | some pos =>
        let key := strExtract t 2 pos
        let val := strDropFrom t (pos + 1)
        match tableFind L key with
        | none => .error ("unknown option: --" ++ key)
        | some i =>
          if argsWithValue args i then .ok (argsAssign args i val, remains)
          else .ok (argsStoreTrue args i, remains)
    else if charAt t 0 = '-' then
      .error ("needs value: ".push (charAt t 1))
    else
      .ok (args, remains ++ [t])
  | args, t :: next :: rest, remains =>
    if strTake2 t = ['-', '-'] then
      match findCharFrom t '=' 2 with
      | none =>
        let key := strDropFrom t 2
        match tableFind L key with
        | none => .error ("unknown option: --" ++ key)
        | some i =>
          if argsWithValue args i then
            parseLoop L S (argsAssign args i next) rest remains
          else
            parseLoop L S (argsStoreTrue args i) (next :: rest) remains
      | some pos =>
        let key := strExtract t 2 pos
        let val := strDropFrom t (pos + 1)
        match tableFind L key with
        | none => .error ("unknown option: --" ++ key)
        | some i =>
          if argsWithValue args i then
            parseLoop L S (argsAssign args i val) (next :: rest) remains
          else
            parseLoop L S (argsStoreTrue args i) (next :: rest) remains
    else if charAt t 0 = '-' then
      let s := charAt t 1
      match tableFind S s with
      | none => .error ("unknown option: -".push s)
      | some i =>
        if argsWithValue args i then
          parseLoop L S (argsAssign args i next) rest remains
        else
          parseLoop L S (argsStoreTrue args i) (next :: rest) remains
    else
      parseLoop L S args (next :: rest) (remains ++ [t])

/-- parser::get_values: read each declaration, in declaration order, into
the typed result tuple; the first uninitialized valued argument throws. -/
def get_values : List Argument → Except String (List Value)
  | [] => .ok []
  | a :: rest =>
    match a.state.get with
    | .error e => .error e
    | .ok v =>
      match get_values rest with
      | .error e => .error e
      | .ok vs => .ok (v :: vs)

/-- The observable success state of the parser after parse: progname(),
options(), remains(). -/
structure ParseResult where
  progname : String
  options : List Value
  remains : List String
deriving DecidableEq, Repr

/-- The body of the try block in parser::parse: the empty-input check,
progname_ = args[0], the token loop, then get_values.  A thrown
argparse_error is the Except.error message. -/
def parse_body (decls : List Argument) (argv : List String) : Except String ParseResult :=
  match argv with
  | [] => .error "argument must be at least one item(s)."
  | prog :: toks =>
    let tables := make_lookup_tables decls
    match parseLoop tables.1 tables.2 decls toks [] with
    | .error e => .error e
    | .ok (args2, remains) =>
      match get_values args2 with
      | .error e => .error e
      | .ok vals => .ok ⟨prog, vals, remains⟩

/-- What one call to parser::parse does to the process: either the parser
now holds a ParseResult, or the catch block has printed
"parse error: " + what() + endl to std::cerr and called std::exit(1). -/
inductive ParseOutcome
  | ok (r : ParseResult)
  | exitProcess (code : Nat) (stderrText : String)
deriving DecidableEq, Repr

/-- parser::parse including its catch block: every argparse_error thrown
inside the try block is caught, printed to std::cerr, and the process is
terminated with exit status 1. -/
def parse (decls : List Argument) (argv : List String) : ParseOutcome :=
  match parse_body decls argv with
  | .ok r => .ok r
  | .error e => .exitProcess 1 ("parse error: " ++ e ++ "\n")

/-- True when the argument is a valued option whose slot is still empty. -/
def slotEmpty (a : Argument) : Bool :=
  match a.state with
  | .valued none => true
  | .valuedStr none => true
  | _ => false

/-- Example declaration: arg<int>("count") with no short name. -/
def countArg : Argument := argInt "count" nul ""

/-- Example declaration: flag("verbose") with no short name. -/
def verboseFlag : Argument := flag "verbose" nul ""

/-- Example declaration set with unique names and unique short names. -/
def uniqueDecls : List Argument := [argInt "count" 'n' "", flag "verbose" 'v' ""]

/-- Example declaration set in which both declarations use the name
"count" and the short name n. -/
def dupDecls : List Argument := [argInt "count" 'n' "", argStr "count" 'n' ""]

/- ------------------------------------------------------------------ -/
/- Helper lemmas.                                                      -/
/- ------------------------------------------------------------------ -/

lemma find_append_single {α : Type} (p : α → Bool) (l : List α) (x : α) :
    (l ++ [x]).find? p =
      match l.find? p with
      | some a => some a
      | none => if p x then some x else none := by
  induction l with
  | nil => cases hx : p x <;> simp [List.find?, hx]
  | cons a t ih =>
    cases ha : p a with
    | true => simp [List.find?, ha]
    | false => simp [List.find?, ha, ih]

lemma findIdxP_cons_true {α : Type} (p : α → Bool) (a : α) (t : List α) (h : p a = true) :
    findIdxP p (a :: t) = some 0 := by
  simp [findIdxP, h]

lemma findIdxP_cons_false {α : Type} (p : α → Bool) (a : α) (t : List α) (h : p a = false) :
    findIdxP p (a :: t) = (findIdxP p t).map (fun j => j + 1) := by
  simp [findIdxP, h]

lemma map_shift (o : Option Nat) (i : Nat) :
    (o.map (fun j => j + 1)).map (fun j => i + j) = o.map (fun j => i + 1 + j) := by
  cases o with
  | none => rfl
  | some j =>
    simp only [Option.map_some']
    congr 1
    omega

lemma tableFind_insert_self {κ : Type} [BEq κ] [LawfulBEq κ]
    (m : LookupTable κ) (k : κ) (v : Nat) :
    tableFind (tableInsert m k v) k =
      match tableFind m k with
      | some w => some w
      | none => some v := by
  unfold tableInsert tableFind
  by_cases h : (m.find? (fun p => p.1 == k)).isSome
  · rw [if_pos h]
    obtain ⟨p, hp⟩ := Option.isSome_iff_exists.mp h
    rw [hp]
    rfl
  · rw [if_neg h, find_append_single]
    rw [Option.not_isSome_iff_eq_none.mp h]
    simp

lemma tableFind_insert_ne {κ : Type} [BEq κ] [LawfulBEq κ]
    (m : LookupTable κ) (k k' : κ) (v : Nat) (h : k' ≠ k) :
    tableFind (tableInsert m k v) k' = tableFind m k' := by
  unfold tableInsert tableFind
  by_cases hs : (m.find? (fun p => p.1 == k)).isSome
  · rw [if_pos hs]
  · rw [if_neg hs, find_append_single]
    cases hf : m.find? (fun p => p.1 == k') with
    | some a => rfl
    | none =>
      have : (k == k') = false := beq_eq_false_iff_ne.mpr (fun he => h he.symm)
      simp [this]

lemma tableFind_aux_long (k : String) :
    ∀ (rest : List Argument) (i : Nat) (L : LookupTable String) (S : LookupTable Char),
    tableFind (make_lookup_tables_aux i L S rest).1 k =
      match tableFind L k with
      | some w => some w
      | none => (findIdxP (fun a => a.name == k) rest).map (fun j => i + j) := by
  intro rest
  induction rest with
  | nil =>
    intro i L S
    simp only [make_lookup_tables_aux, findIdxP, Option.map_none']
    cases tableFind L k <;> rfl
  | cons a t ih =>
    intro i L S
    rw [make_lookup_tables_aux, ih]
    by_cases hak : a.name = k
    · rw [hak, tableFind_insert_self]
      cases hL : tableFind L k with
      | some w => rfl
      | none =>
        dsimp only
        rw [findIdxP_cons_true (fun x : Argument => x.name == k) a t (by simp [hak])]
        simp
    · rw [tableFind_insert_ne _ _ _ _ (fun he => hak he.symm)]
      cases hL : tableFind L k with
      | some w => rfl
      | none =>
        dsimp only
        rw [findIdxP_cons_false (fun x : Argument => x.name == k) a t
          (beq_eq_false_iff_ne.mpr hak), map_shift]

lemma tableFind_aux_short (c : Char) (hc : c ≠ nul) :
    ∀ (rest : List Argument) (i : Nat) (L : LookupTable String) (S : LookupTable Char),
    tableFind (make_lookup_tables_aux i L S rest).2 c =
      match tableFind S c with
      | some w => some w
      | none => (findIdxP (fun a => a.short_name == c) rest).map (fun j => i + j) := by
  intro rest
  induction rest with
  | nil =>
    intro i L S
    simp only [make_lookup_tables_aux, findIdxP, Option.map_none']
    cases tableFind S c <;> rfl
  | cons a t ih =>
    intro i L S
    rw [make_lookup_tables_aux, ih]
    by_cases hnul : a.short_name = nul
    · have hguard : (a.short_name == nul) = true := by simp [hnul]
      rw [if_pos hguard]
      have hp : (a.short_name == c) = false :=
        beq_eq_false_iff_ne.mpr (fun he => hc (hnul ▸ he.symm))
      cases hL : tableFind S c with
      | some w => rfl
      | none =>
        dsimp only
        rw [findIdxP_cons_false (fun x : Argument => x.short_name == c) a t hp, map_shift]
    · have hguard : (a.short_name == nul) = false := beq_eq_false_iff_ne.mpr hnul
      rw [if_neg (by simp [hguard])]
      by_cases hac : a.short_name = c
      · rw [hac, tableFind_insert_self]
        cases hL : tableFind S c with
        | some w => rfl
        | none =>
          dsimp only
          rw [findIdxP_cons_true (fun x : Argument => x.short_name == c) a t (by simp [hac])]
          simp
      · rw [tableFind_insert_ne _ _ _ _ (fun he => hac he.symm)]
        cases hL : tableFind S c with
        | some w => rfl
        | none =>
          dsimp only
          rw [findIdxP_cons_false (fun x : Argument => x.short_name == c) a t
            (beq_eq_false_iff_ne.mpr hac), map_shift]

lemma tableFind_aux_short_nul :
    ∀ (rest : List Argument) (i : Nat) (L : LookupTable String) (S : LookupTable Char),
    tableFind (make_lookup_tables_aux i L S rest).2 nul = tableFind S nul := by
  intro rest
  induction rest with
  | nil => intro i L S; rfl
  | cons a t ih =>
    intro i L S
    rw [make_lookup_tables_aux, ih]
    by_cases hnul : a.short_name = nul
    · rw [if_pos (by simp [hnul])]
    · rw [if_neg (by simp [hnul]), tableFind_insert_ne _ _ _ _ (fun he => hnul he.symm)]

lemma tableFind_long (decls : List Argument) (k : String) :
    tableFind (make_lookup_tables decls).1 k = findIdxP (fun a => a.name == k) decls := by
  rw [make_lookup_tables, tableFind_aux_long]
  cases findIdxP (fun a : Argument => a.name == k) decls <;> simp [tableFind]

lemma tableFind_short (decls : List Argument) (c : Char) (hc : c ≠ nul) :
    tableFind (make_lookup_tables decls).2 c = findIdxP (fun a => a.short_name == c) decls := by
  rw [make_lookup_tables, tableFind_aux_short c hc]
  cases findIdxP (fun a : Argument => a.short_name == c) decls <;> simp [tableFind]

lemma tableFind_short_nul (decls : List Argument) :
    tableFind (make_lookup_tables decls).2 nul = none := by
  rw [make_lookup_tables, tableFind_aux_short_nul]
  rfl

lemma findIdxP_first {α : Type} (p : α → Bool) :
    ∀ (l : List α) (i : Nat) (h : i < l.length), p (l.get ⟨i, h⟩) = true →
    (∀ j, j < i → ∀ (hj : j < l.length), p (l.get ⟨j, hj⟩) = false) →
    findIdxP p l = some i := by
  intro l
  induction l with
  | nil => intro i h; simp at h
  | cons a t ih =>
    intro i h hp hmin
    match i with
    | 0 =>
      simp only [List.get] at hp
      simp [findIdxP, hp]
    | i + 1 =>
      have ha : p a = false := hmin 0 (Nat.zero_lt_succ i) (Nat.zero_lt_succ t.length)
      have ht : i < t.length := Nat.lt_of_succ_lt_succ h
      have hp' : p (t.get ⟨i, ht⟩) = true := hp
      have hmin' : ∀ j, j < i → ∀ (hj : j < t.length), p (t.get ⟨j, hj⟩) = false := by
        intro j hj hjt
        exact hmin (j + 1) (Nat.succ_lt_succ hj) (Nat.succ_lt_succ hjt)
      simp [findIdxP, ha, ih i ht hp' hmin']

lemma findIdxP_eq_none {α : Type} (p : α → Bool) (l : List α) (h : ∀ x ∈ l, p x = false) :
    findIdxP p l = none := by
  induction l with
  | nil => rfl
  | cons a t ih =>
    rw [findIdxP_cons_false p a t (h a (List.mem_cons_self a t)),
      ih (fun x hx => h x (List.mem_cons_of_mem a hx))]
    rfl

lemma strTake2_dashdash (key : String) : strTake2 ("--" ++ key) = ['-', '-'] := rfl

lemma strDropFrom_dashdash (key : String) : strDropFrom ("--" ++ key) 2 = key := rfl

lemma findCharFrom_dashdash_none (key : String) (h : '=' ∉ key.data) :
    findCharFrom ("--" ++ key) '=' 2 = none := by
  rw [findCharFrom]
  have hd : ("--" ++ key).data.drop 2 = key.data := rfl
  rw [hd, findIdxP_eq_none (fun x => x == '=') key.data
    (fun x hx => beq_eq_false_iff_ne.mpr (fun he => h (he ▸ hx)))]
  rfl

lemma take_length_append {α : Type} (l₁ l₂ : List α) : (l₁ ++ l₂).take l₁.length = l₁ := by
  induction l₁ with
  | nil => rfl
  | cons a t ih => simp [ih]

lemma findIdxP_marker (kd vd : List Char) (h : '=' ∉ kd) :
    findIdxP (fun x => x == '=') ((kd ++ ['=']) ++ vd) = some kd.length := by
  induction kd with
  | nil => rfl
  | cons c t ih =>
    have hc : (c == '=') = false :=
      beq_eq_false_iff_ne.mpr (fun he => h (he ▸ List.mem_cons_self c t))
    show findIdxP (fun x => x == '=') (c :: ((t ++ ['=']) ++ vd)) = _
    rw [findIdxP_cons_false (fun x => x == '=') c _ hc,
      ih (fun hm => h (List.mem_cons_of_mem c hm))]
    rfl

lemma strTake2_inline (key val : String) :
    strTake2 ("--" ++ key ++ "=" ++ val) = ['-', '-'] := rfl

lemma findCharFrom_inline (key val : String) (h : '=' ∉ key.data) :
    findCharFrom ("--" ++ key ++ "=" ++ val) '=' 2 = some (2 + key.data.length) := by
  rw [findCharFrom]
  have hd : ("--" ++ key ++ "=" ++ val).data.drop 2 = (key.data ++ ['=']) ++ val.data := rfl
  rw [hd, findIdxP_marker key.data val.data h]
  rfl

lemma strExtract_inline (key val : String) :
    strExtract ("--" ++ key ++ "=" ++ val) 2 (2 + key.data.length) = key := by
  show String.mk ((("--" ++ key ++ "=" ++ val).data.drop 2).take (2 + key.data.length - 2)) = key
  have h1 : 2 + key.data.length - 2 = key.data.length := by omega
  have hd : ("--" ++ key ++ "=" ++ val).data.drop 2 = key.data ++ (['='] ++ val.data) :=
    List.append_assoc _ _ _
  rw [h1, hd, take_length_append]

lemma argState_get_error_msg (s : ArgState) (e : String) (h : s.get = .error e) :
    e = "argument is not initialized" := by
  cases s with
  | valued slot =>
    cases slot with
    | none => simp [ArgState.get] at h; exact h.symm
    | some v => simp [ArgState.get] at h
  | valuedStr slot =>
    cases slot with
    | none => simp [ArgState.get] at h; exact h.symm
    | some v => simp [ArgState.get] at h
  | flagState b => simp [ArgState.get] at h

lemma slotEmpty_iff_get_error (a : Argument) :
    slotEmpty a = true ↔ a.state.get = .error "argument is not initialized" := by
  rcases a with ⟨n, sn, h, st⟩
  cases st with
  | valued slot => cases slot <;> simp [slotEmpty, ArgState.get]
  | valuedStr slot => cases slot <;> simp [slotEmpty, ArgState.get]
  | flagState b => simp [slotEmpty, ArgState.get]

lemma get_values_error_msg : ∀ (args : List Argument) (e : String),
    get_values args = .error e → e = "argument is not initialized" := by
  intro args
  induction args with
  | nil => intro e h; simp [get_values] at h
  | cons a t ih =>
    intro e h
    rw [get_values] at h
    cases hg : a.state.get with
    | error e0 =>
      rw [hg] at h
      have he : e0 = e := by simpa using h
      rw [← he]
      exact argState_get_error_msg a.state e0 hg
    | ok v =>
      rw [hg] at h
      cases hgv : get_values t with
      | error e1 =>
        rw [hgv] at h
        have he : e1 = e := by simpa using h
        rw [← he]
        exact ih e1 hgv
      | ok vs => rw [hgv] at h; simp at h

/- ------------------------------------------------------------------ -/
/- Claim theorems.                                                     -/
/- ------------------------------------------------------------------ -/

/-- C1 (amended): registry construction is total and never fails — the
source inserts into the unordered_maps with no collision check and has no
DuplicateOptionError.  For every declaration set whose names and present
short aliases are unique, construction yields tables in which every name
and every non-NUL alias resolves to its own declaration (identified by
its index in declaration order). -/
theorem registry_total_unique_keys_resolve (decls : List Argument)
    (hn : ∀ i j : Fin decls.length, (decls.get i).name = (decls.get j).name → i = j)
    (hs : ∀ i j : Fin decls.length, (decls.get i).short_name ≠ nul →
      (decls.get i).short_name = (decls.get j).short_name → i = j) :
    ∀ i : Fin decls.length,
      tableFind (make_lookup_tables decls).1 (decls.get i).name = some i.val
      ∧ ((decls.get i).short_name ≠ nul →
        tableFind (make_lookup_tables decls).2 (decls.get i).short_name = some i.val) := by
  intro i
  constructor
  · rw [tableFind_long]
    apply findIdxP_first _ decls i.val i.isLt
    · simp
    · intro j hj hjl
      apply beq_eq_false_iff_ne.mpr
      intro he
      have hij : j = i.val := congrArg Fin.val (hn ⟨j, hjl⟩ i he)
      omega
  · intro hne
    rw [tableFind_short _ _ hne]
    apply findIdxP_first _ decls i.val i.isLt
    · simp
    · intro j hj hjl
      apply beq_eq_false_iff_ne.mpr
      intro he
      have hij : j = i.val := congrArg Fin.val (hs ⟨j, hjl⟩ i (fun h0 => hne (he ▸ h0)) he)
      omega

/-- Witness for C1: a concrete two-declaration set with unique names and
aliases, in which both lookups resolve the first declaration. -/
theorem registry_total_unique_keys_resolve_witness :
    tableFind (make_lookup_tables uniqueDecls).1 "count" = some 0
    ∧ tableFind (make_lookup_tables uniqueDecls).2 'n' = some 0 := by
  have h := registry_total_unique_keys_resolve uniqueDecls (by decide) (by decide)
    ⟨0, by decide⟩
  exact ⟨h.1, h.2 (by decide)⟩

/-- C1 counterexample: dupDecls declares the name "count" and the short
alias n twice, yet registry construction does not fail — it returns the
lookup tables (keeping the first declaration under each key).  No
DuplicateOptionError exists in the source. -/
theorem registry_duplicate_construction_succeeds :
    make_lookup_tables dupDecls = ([("count", 0)], [('n', 0)]) := rfl

/-- C9: registry construction always completes, and every lookup, long or
short, resolves to the first declaration in declaration order that
carries the looked-up name or alias; a later duplicate declaration is
unreachable through that key. -/
theorem duplicate_keys_resolve_to_first (decls : List Argument) :
    (∀ k : String, tableFind (make_lookup_tables decls).1 k
        = findIdxP (fun a => a.name == k) decls)
    ∧ ∀ c : Char, c ≠ nul → tableFind (make_lookup_tables decls).2 c
        = findIdxP (fun a => a.short_name == c) decls :=
  ⟨fun k => tableFind_long decls k, fun c hc => tableFind_short decls c hc⟩

/-- Witness for C9: both declarations of dupDecls share name and alias;
lookups resolve to index 0, the earliest declaration. -/
theorem duplicate_keys_resolve_to_first_witness :
    tableFind (make_lookup_tables dupDecls).1 "count" = some 0
    ∧ tableFind (make_lookup_tables dupDecls).2 'n' = some 0 := by
  constructor
  · rw [(duplicate_keys_resolve_to_first dupDecls).1 "count"]; rfl
  · rw [(duplicate_keys_resolve_to_first dupDecls).2 'n' (by decide)]; rfl

/-- C2 (amended): when the try body of parse fails, the error does not
surface to the caller: the catch block prints "parse error: " plus the
message (and a newline) to std::cerr and terminates the process with exit
status 1.  No typed failure value reaches the caller. -/
theorem parse_failure_prints_and_exits (decls : List Argument) (argv : List String)
    (e : String) (h : parse_body decls argv = .error e) :
    parse decls argv = .exitProcess 1 ("parse error: " ++ e ++ "\n") := by
  unfold parse
  rw [h]

/-- Witness for C2: a concrete failing input reaching the catch block. -/
theorem parse_failure_prints_and_exits_witness :
    parse [countArg] ["prog", "--count"]
      = .exitProcess 1 ("parse error: " ++ "needs value: count" ++ "\n") :=
  parse_failure_prints_and_exits [countArg] ["prog", "--count"] "needs value: count" rfl

/-- C2 counterexample: on the failing input ["prog", "--count"] the error
is not returned to the caller as a typed failure: parse ends in the
process-exit outcome, having printed the message to std::cerr. -/
theorem parse_failure_not_surfaced :
    parse [countArg] ["prog", "--count"]
      = .exitProcess 1 "parse error: needs value: count\n" := rfl

/-- C5 (amended): assigning a raw string to a valued option never fails
and always stores a value: the int instantiation stores the stream
extraction result, which is 0 whenever extraction fails (e.g. a
non-numeric string); the string instantiation stores the raw string
itself.  No ConversionError exists in the source. -/
theorem conversion_total_failure_stores_zero :
    (∀ (slot : Option Int) (src : String),
      ArgState.assign (.valued slot) src = .valued (some (strToIntStream src)))
    ∧ (∀ src : String, streamExtractInt src.data = none → strToIntStream src = 0)
    ∧ (∀ (slot : Option String) (src : String),
      ArgState.assign (.valuedStr slot) src = .valuedStr (some src)) := by
  refine ⟨fun slot src => rfl, fun src h => ?_, fun slot src => rfl⟩
  rw [strToIntStream, h]
  rfl

/-- Witness for C5: "abc" has no digits, extraction fails, 0 results. -/
theorem conversion_total_failure_stores_zero_witness :
    strToIntStream "abc" = 0 :=
  conversion_total_failure_stores_zero.2.1 "abc" rfl

/-- C5 counterexample: assigning the non-numeric string "abc" to the
integer option count raises no error and stores a value: the whole parse
succeeds and reports count = 0. -/
theorem conversion_failure_stores_value :
    parse_body [countArg] ["prog", "--count=abc"]
      = .ok ⟨"prog", [.int 0], []⟩ := rfl

/-- C6: the last occurrence wins: a later assign overwrites the stored
state with no accumulation (and so does a repeated trigger), and parsing
["prog", "--count=1", "--count=2"] against the integer option count
yields count = 2. -/
theorem last_occurrence_wins :
    (∀ (a : ArgState) (r1 r2 : String), (a.assign r1).assign r2 = a.assign r2)
    ∧ (∀ a : ArgState, a.store_true.store_true = a.store_true)
    ∧ parse_body [countArg] ["prog", "--count=1", "--count=2"]
        = .ok ⟨"prog", [.int 2], []⟩ := by
  refine ⟨fun a r1 r2 => ?_, fun a => ?_, rfl⟩
  · cases a <;> rfl
  · cases a <;> rfl

/-- C7 (amended): after the token stream is exhausted, result extraction
fails — with the fixed message "argument is not initialized", which does
not name the option — exactly when some declared valued option slot is
still empty; every declared valued option is implicitly required. -/
theorem extraction_fails_iff_empty_slot :
    (∀ args : List Argument,
      get_values args = .error "argument is not initialized"
        ↔ args.any slotEmpty = true)
    ∧ parse_body [countArg] ["prog"] = .error "argument is not initialized" := by
  refine ⟨?_, rfl⟩
  intro args
  induction args with
  | nil =>
    constructor
    · intro h; simp [get_values] at h
    · intro h; simp at h
  | cons a t ih =>
    rw [get_values, List.any_cons]
    cases hg : a.state.get with
    | error e0 =>
      have he0 : e0 = "argument is not initialized" := argState_get_error_msg a.state e0 hg
      subst he0
      have hse : slotEmpty a = true := (slotEmpty_iff_get_error a).mpr hg
      simp [hse]
    | ok v =>
      have hse : slotEmpty a = false := by
        by_contra hc
        rw [Bool.not_eq_false] at hc
        have h2 := (slotEmpty_iff_get_error a).mp hc
        rw [hg] at h2
        simp at h2
      cases hgv : get_values t with
      | error e1 =>
        have he1 : e1 = "argument is not initialized" := get_values_error_msg t e1 hgv
        subst he1
        simp [hse, ih.mp hgv]
      | ok vs =>
        have hta : t.any slotEmpty = false := by
          by_contra hc
          rw [Bool.not_eq_false] at hc
          rw [ih.mpr hc] at hgv
          simp at hgv
        simp [hse, hta]

/-- C7 counterexample: the never-supplied valued option count makes the
parse fail, but the error message is the fixed string "argument is not
initialized": it does not name the option (the name "count" does not
occur in the message). -/
theorem missing_required_message_lacks_name :
    parse_body [countArg] ["prog"] = .error "argument is not initialized"
    ∧ listIsInfix "count".data "argument is not initialized".data = false :=
  ⟨rfl, by decide⟩

/-- C10: the capability that does not match the declaration kind is a
no-op on all state: store_true on a valued option leaves its slot
unchanged, and assign on a flag leaves its triggered state unchanged, for
every slot state, flag state and raw string. -/
theorem mismatched_capability_noop :
    (∀ slot : Option Int, (ArgState.valued slot).store_true = .valued slot)
    ∧ (∀ slot : Option String, (ArgState.valuedStr slot).store_true = .valuedStr slot)
    ∧ (∀ (b : Bool) (src : String), (ArgState.flagState b).assign src = .flagState b) :=
  ⟨fun _ => rfl, fun _ => rfl, fun _ _ => rfl⟩

/-- C3 (amended): for a token "--" + key containing no "=", when a next
token exists and key resolves to a flag, the flag is triggered and no
following token is consumed; but when "--" + key is the final token,
parse fails with the MissingValueError message "needs value: " + key
regardless of what key resolves to — even for a flag — because the
end-of-input check precedes resolution. -/
theorem flag_trigger_consumes_nothing_unless_final :
    (∀ (L : LookupTable String) (S : LookupTable Char) (args : List Argument)
      (key : String) (i : Nat) (next : String) (rest remains : List String),
      '=' ∉ key.data → tableFind L key = some i → argsWithValue args i = false →
      parseLoop L S args (("--" ++ key) :: next :: rest) remains
        = parseLoop L S (argsStoreTrue args i) (next :: rest) remains)
    ∧ (∀ (L : LookupTable String) (S : LookupTable Char) (args : List Argument)
      (key : String) (remains : List String), '=' ∉ key.data →
      parseLoop L S args [("--" ++ key)] remains = .error ("needs value: " ++ key)) := by
  constructor
  · intro L S args key i next rest remains hkey hfind hflag
    simp only [parseLoop]
    rw [if_pos (strTake2_dashdash key), findCharFrom_dashdash_none key hkey]
    dsimp only
    rw [strDropFrom_dashdash key, hfind]
    dsimp only
    rw [hflag]
    simp only [Bool.false_eq_true, if_false]
  · intro L S args key remains hkey
    simp only [parseLoop]
    rw [if_pos (strTake2_dashdash key), findCharFrom_dashdash_none key hkey]
    dsimp only
    rw [strDropFrom_dashdash key]

/-- Witness for C3: verbose is a flag; with a following token it is
triggered and "file.txt" stays in the stream; as the final token, parse
fails with "needs value: verbose". -/
theorem flag_trigger_consumes_nothing_unless_final_witness :
    (parseLoop (make_lookup_tables [verboseFlag]).1 (make_lookup_tables [verboseFlag]).2
        [verboseFlag] (("--" ++ "verbose") :: "file.txt" :: []) []
      = parseLoop (make_lookup_tables [verboseFlag]).1 (make_lookup_tables [verboseFlag]).2
        (argsStoreTrue [verboseFlag] 0) ["file.txt"] [])
    ∧ parseLoop (make_lookup_tables [verboseFlag]).1 (make_lookup_tables [verboseFlag]).2
        [verboseFlag] [("--" ++ "verbose")] [] = .error ("needs value: " ++ "verbose") := by
  constructor
  · exact flag_trigger_consumes_nothing_unless_final.1 _ _ [verboseFlag] "verbose" 0
      "file.txt" [] [] (by decide) rfl rfl
  · exact flag_trigger_consumes_nothing_unless_final.2 _ _ [verboseFlag] "verbose" []
      (by decide)

/-- C3 counterexample: verbose is a flag, yet "--verbose" as the final
token of the input does not trigger it — the parse fails with the
MissingValueError message, because the end-of-input check runs before the
declaration is resolved. -/
theorem flag_as_final_token_errors :
    parse_body [verboseFlag] ["prog", "--verbose"] = .error "needs value: verbose" := rfl

/-- C4 (amended): a long or short option token whose name or alias is not
registered fails with UnknownOptionError carrying the offending token —
whenever a next token exists, and, for the inline "--key=value" form, in
every position including the final one.  But an unknown long token
without "=" or an unknown short token that is the final token instead
fails with the MissingValueError message, because the end-of-input check
precedes registry lookup. -/
theorem unknown_option_error_except_final :
    (∀ (L : LookupTable String) (S : LookupTable Char) (args : List Argument)
      (key next : String) (rest remains : List String),
      '=' ∉ key.data → tableFind L key = none →
      parseLoop L S args (("--" ++ key) :: next :: rest) remains
        = .error ("unknown option: --" ++ key))
    ∧ (∀ (L : LookupTable String) (S : LookupTable Char) (args : List Argument)
      (key val : String) (toks remains : List String),
      '=' ∉ key.data → tableFind L key = none →
      parseLoop L S args (("--" ++ key ++ "=" ++ val) :: toks) remains
        = .error ("unknown option: --" ++ key))
    ∧ (∀ (L : LookupTable String) (S : LookupTable Char) (args : List Argument)
      (t next : String) (rest remains : List String),
      strTake2 t ≠ ['-', '-'] → charAt t 0 = '-' → tableFind S (charAt t 1) = none →
      parseLoop L S args (t :: next :: rest) remains
        = .error ("unknown option: -".push (charAt t 1)))
    ∧ (∀ (L : LookupTable String) (S : LookupTable Char) (args : List Argument)
      (key : String) (remains : List String), '=' ∉ key.data →
      parseLoop L S args [("--" ++ key)] remains = .error ("needs value: " ++ key))
    ∧ (∀ (L : LookupTable String) (S : LookupTable Char) (args : List Argument)
      (t : String) (remains : List String),
      strTake2 t ≠ ['-', '-'] → charAt t 0 = '-' →
      parseLoop L S args [t] remains = .error ("needs value: ".push (charAt t 1))) := by
  refine ⟨?_, ?_, ?_, ?_, ?_⟩
  · intro L S args key next rest remains hkey hfind
    simp only [parseLoop]
    rw [if_pos (strTake2_dashdash key), findCharFrom_dashdash_none key hkey]
    dsimp only
    rw [strDropFrom_dashdash key, hfind]
  · intro L S args key val toks remains hkey hfind
    cases toks with
    | nil =>
      simp only [parseLoop]
      rw [if_pos (strTake2_inline key val), findCharFrom_inline key val hkey]
      dsimp only
      rw [strExtract_inline key val, hfind]
    | cons next rest =>
      simp only [parseLoop]
      rw [if_pos (strTake2_inline key val), findCharFrom_inline key val hkey]
      dsimp only
      rw [strExtract_inline key val, hfind]
  · intro L S args t next rest remains ht h0 hfind
    simp only [parseLoop]
    rw [if_neg ht, if_pos h0, hfind]
  · intro L S args key remains hkey
    simp only [parseLoop]
    rw [if_pos (strTake2_dashdash key), findCharFrom_dashdash_none key hkey]
    dsimp only
    rw [strDropFrom_dashdash key]
  · intro L S args t remains ht h0
    simp only [parseLoop]
    rw [if_neg ht, if_pos h0]

/-- Witness for C4: against the registry of the single declaration count,
unknown long and short options in every syntactic position. -/
theorem unknown_option_error_except_final_witness :
    (parseLoop (make_lookup_tables [countArg]).1 (make_lookup_tables [countArg]).2
        [countArg] (("--" ++ "bogus") :: "x" :: []) []
      = .error ("unknown option: --" ++ "bogus"))
    ∧ (parseLoop (make_lookup_tables [countArg]).1 (make_lookup_tables [countArg]).2
        [countArg] [("--" ++ "bogus" ++ "=" ++ "1")] []
      = .error ("unknown option: --" ++ "bogus"))
    ∧ (parseLoop (make_lookup_tables [countArg]).1 (make_lookup_tables [countArg]).2
        [countArg] ("-z" :: "x" :: []) []
      = .error ("unknown option: -".push (charAt "-z" 1)))
    ∧ (parseLoop (make_lookup_tables [countArg]).1 (make_lookup_tables [countArg]).2
        [countArg] [("--" ++ "bogus")] []
      = .error ("needs value: " ++ "bogus"))
    ∧ (parseLoop (make_lookup_tables [countArg]).1 (make_lookup_tables [countArg]).2
        [countArg] ["-z"] []
      = .error ("needs value: ".push (charAt "-z" 1))) := by
  refine ⟨?_, ?_, ?_, ?_, ?_⟩
  · exact unknown_option_error_except_final.1 _ _ [countArg] "bogus" "x" [] []
      (by decide) rfl
  · exact unknown_option_error_except_final.2.1 _ _ [countArg] "bogus" "1" [] []
      (by decide) rfl
  · exact unknown_option_error_except_final.2.2.1 _ _ [countArg] "-z" "x" [] []
      (by decide) rfl rfl
  · exact unknown_option_error_except_final.2.2.2.1 _ _ [countArg] "bogus" []
      (by decide)
  · exact unknown_option_error_except_final.2.2.2.2 _ _ [countArg] "-z" []
      (by decide) rfl

/-- C4 counterexample: bogus is not registered, yet "--bogus" as the
final token fails with the MissingValueError message "needs value: bogus"
rather than with UnknownOptionError, because the end-of-input check runs
before registry lookup. -/
theorem unknown_option_final_token_wrong_error :
    parse_body [countArg] ["prog", "--bogus"] = .error "needs value: bogus" := rfl

/-- C8 (amended): the single-character token "-" is classified as a short
option, not a positional: arg[0] is the dash and the alias char arg[1] is
the NUL char that operator[] returns at position size().  NUL aliases are
never registered, so parse fails — "unknown option: -" + NUL when a next
token exists, "needs value: " + NUL when "-" is the final token — and "-"
is never appended to the remaining arguments. -/
theorem dash_token_is_short_option :
    (∀ (decls args : List Argument) (next : String) (rest remains : List String),
      parseLoop (make_lookup_tables decls).1 (make_lookup_tables decls).2 args
        ("-" :: next :: rest) remains = .error ("unknown option: -".push nul))
    ∧ (∀ (L : LookupTable String) (S : LookupTable Char) (args : List Argument)
      (remains : List String),
      parseLoop L S args ["-"] remains = .error ("needs value: ".push nul)) := by
  constructor
  · intro decls args next rest remains
    simp only [parseLoop]
    rw [if_neg (by decide), if_pos (by decide)]
    have hc : charAt "-" 1 = nul := rfl
    rw [hc, tableFind_short_nul]
  · intro L S args remains
    simp only [parseLoop]
    rw [if_neg (by decide), if_pos (by decide)]
    rfl

/-- C8 counterexample: with no declarations at all, the input
["prog", "-", "x"] does not place "-" among the remaining arguments:
parse fails with "unknown option: -" + NUL (and with
"needs value: " + NUL when "-" is the final token). -/
theorem dash_token_not_positional :
    parse_body [] ["prog", "-", "x"] = .error ("unknown option: -".push nul)
    ∧ parse_body [] ["prog", "-"] = .error ("needs value: ".push nul) := ⟨rfl, rfl⟩

end Argparse
